import Mathlib

/-!
Shallow embedding of `Zip2S3Uploader` (`src/main.py`): a CLI that downloads a
ZIP archive from a URL and uploads each non-directory member to an S3 bucket
through a thread pool.

External collaborators (`requests.get`, `zipfile.ZipFile`, the boto3 S3
client) are passed in as explicit parameters describing their observable
behaviour; the functions of `main.py` — `download_zip`, `upload_file`,
`extract_and_upload_file`, `main` — are translated from the source.
Concurrency is modelled by the sequential denotation of the task list: each
submitted future performs exactly one store call; `concurrent.futures.wait`
joins all futures and discards their stored exceptions, exactly as the
source does (it never calls `future.result()`).
-/

/-- Raw bytes (a Python `bytes` value), as a list of byte values. -/
abbrev Bytes := List Nat

-- Equality on fallible results, used to compare recorded outcomes.
deriving instance DecidableEq for Except

/-- Model of Python's `str.endswith(suffix)`, at the character-list level
so that it evaluates inside the kernel. -/
def endswith (s suffix : String) : Bool :=
  suffix.data.isSuffixOf s.data

/-- Model of Python's `str.startswith(prefix)`, at the character-list
level. -/
def startswith (s pre : String) : Bool :=
  pre.data.isPrefixOf s.data

/-- Accumulates the value of a decimal digit string; fails on the first
non-digit character. -/
def decDigitsAux : List Char → Nat → Option Nat
  | [], acc => some acc
  | c :: rest, acc =>
    if c.isDigit then decDigitsAux rest (acc * 10 + (c.toNat - 48)) else none

/-- Model of Python's `int(s)` on the plain decimal strings argparse's
`type=int` receives: an optional leading minus sign followed by at least
one digit. -/
def int_of_string (s : String) : Option Int :=
  match s.data with
  | [] => none
  | ['-'] => none
  | '-' :: c :: rest => (decDigitsAux (c :: rest) 0).map (fun n => -(n : Int))
  | l => (decDigitsAux l 0).map (fun n => (n : Int))

/-- An HTTP response as seen by `requests.get`: a status code and a body. -/
structure HttpResponse where
  status : Nat
  content : Bytes
deriving Repr, DecidableEq

/-- Outcome of the single `requests.get(zip_url)` call: either a response
object, or a raised `requests.exceptions.RequestException` (connection
error, timeout, ...) carrying a message. -/
inductive GetResult where
  | resp (r : HttpResponse)
  | exn (msg : String)

/-- Whether `response.raise_for_status()` raises: it raises `HTTPError`
(a `RequestException`) exactly for 4xx and 5xx status codes. -/
def raiseForStatusRaises (r : HttpResponse) : Bool :=
  (400 ≤ r.status && r.status < 500) || (500 ≤ r.status && r.status < 600)

/-- Embedding of `download_zip` (`src/main.py` lines 19-34): performs the
GET, calls `raise_for_status`, and returns the body bytes; any
`RequestException` is re-raised as `Exception("Failed to download ZIP
archive from {zip_url}: {e}")`. `Except.error` models the raised
exception. -/
def download_zip (zip_url : String) (get : GetResult) : Except String Bytes :=
  match get with
  | .exn e =>
      .error ("Failed to download ZIP archive from " ++ zip_url ++ ": " ++ e)
  | .resp r =>
      if raiseForStatusRaises r then
        .error ("Failed to download ZIP archive from " ++ zip_url ++
                ": HTTPError " ++ toString r.status)
      else
        .ok r.content

/-- An archive member: a `zipfile.ZipInfo` (its `filename`) together with
the decompressed bytes that `zip_file.open(file_info)` yields for it. -/
structure ZipEntry where
  filename : String
  content : Bytes
deriving Repr, DecidableEq

/-- The directory test of `src/main.py` line 58:
`file_info.filename.endswith('/')`. -/
def isDirectoryEntry (e : ZipEntry) : Bool :=
  endswith e.filename "/"

/-- Behaviour of `zipfile.ZipFile(zip_content, 'r')` followed by
`zip_file.infolist()`: parses the bytes into the archive index order entry
list, or raises (`zipfile.BadZipFile`) on a corrupt archive. The ZIP
format itself is external library behaviour, so it is a parameter. -/
abbrev ZipOpen := Bytes → Except String (List ZipEntry)

/-- Behaviour of the boto3 client's `upload_fileobj(file, bucket_name,
s3_key)`: given the bucket (which may be `None`), the key and the data, it
either succeeds or raises with a message. -/
abbrev Store := Option String → String → Bytes → Except String Unit

/-- One call made to the store client: the arguments of one
`upload_fileobj` invocation. -/
structure PutCall where
  bucket : Option String
  key : String
  data : Bytes
deriving Repr, DecidableEq

/-- Embedding of `upload_file` (`src/main.py` lines 64-84): opens the entry
inside the archive and calls
`s3_client.upload_fileobj(file, bucket_name, file_info.filename)`.
Returns the store call it makes and the store's outcome. -/
def upload_file (store : Store) (file_info : ZipEntry)
    (bucket_name : Option String) : PutCall × Except String Unit :=
  ({ bucket := bucket_name, key := file_info.filename, data := file_info.content },
   store bucket_name file_info.filename file_info.content)

/-- Embedding of `extract_and_upload_file` (`src/main.py` lines 37-61):
downloads the archive, opens it, creates a
`ThreadPoolExecutor(max_workers=concurrency_level)` (whose constructor
raises `ValueError` when `max_workers <= 0`), submits `upload_file` for
every entry whose filename does not end in `'/'`, and waits for all
futures. The first component collects every store call made, in submission
order; the second is the function's outcome — `Except.ok` carries the
joined futures as (key, stored outcome) pairs, which the source never
inspects, and `Except.error` models a raised exception. -/
def extract_and_upload_file (zip_url : String) (get : GetResult)
    (zipOpen : ZipOpen) (bucket_name : Option String) (store : Store)
    (concurrency_level : Int) :
    List PutCall × Except String (List (String × Except String Unit)) :=
  match download_zip zip_url get with
  | .error e => ([], .error e)
  | .ok zip_content =>
    match zipOpen zip_content with
    | .error e => ([], .error e)
    | .ok infolist =>
      if concurrency_level ≤ 0 then
        ([], .error "ValueError: max_workers must be greater than 0")
      else
        let futures :=
          (infolist.filter (fun file_info => ! isDirectoryEntry file_info)).map
            (fun file_info => (file_info.filename, upload_file store file_info bucket_name))
        (futures.map (fun f => f.2.1), .ok (futures.map (fun f => (f.1, f.2.2))))

/-- The parsed command-line arguments (`argparse` result of
`src/main.py` lines 107-112): positional `zip_url`; `--bucket` with no
`required=True`, hence defaulting to `None`; `--concurrency` of type int
defaulting to 1 with no range check; `--verbose` as a boolean flag. -/
structure Args where
  zip_url : String
  bucket : Option String
  concurrency : Int
  verbose : Bool
deriving Repr, DecidableEq

/-- Intermediate state of the argparse scan. -/
structure ParseState where
  positional : Option String
  bucket : Option String
  concurrency : Int
  verbose : Bool
deriving Repr, DecidableEq

/-- Modelled behaviour of the `argparse` scan over the argument vector for
the parser of `src/main.py` lines 107-111: `--bucket` consumes a value,
`--concurrency` consumes a value converted by `int` (failure is a parse
error), `--verbose` stores true, an unknown `--` option is an error, and a
plain token fills the single `zip_url` positional (a second one is an
error). -/
def parseArgsLoop : List String → ParseState → Except String ParseState
  | [], st => .ok st
  | tok :: rest, st =>
    if tok = "--bucket" then
      match rest with
      | [] => .error "argument --bucket: expected one argument"
      | v :: rest2 => parseArgsLoop rest2 { st with bucket := some v }
    else if tok = "--concurrency" then
      match rest with
      | [] => .error "argument --concurrency: expected one argument"
      | v :: rest2 =>
        match int_of_string v with
        | none => .error ("argument --concurrency: invalid int value: " ++ v)
        | some n => parseArgsLoop rest2 { st with concurrency := n }
    else if tok = "--verbose" then
      parseArgsLoop rest { st with verbose := true }
    else if startswith tok "--" then
      .error ("unrecognized arguments: " ++ tok)
    else
      match st.positional with
      | none => parseArgsLoop rest { st with positional := some tok }
      | some _ => .error ("unrecognized arguments: " ++ tok)

/-- Modelled `parser.parse_args()`: scans the argument vector and then
checks that the required positional `zip_url` was supplied. No check at
all is made on `--bucket` (absent means `None`) or on the value of
`--concurrency`. -/
def parse_args (argv : List String) : Except String Args :=
  match parseArgsLoop argv ⟨none, none, 1, false⟩ with
  | .error e => .error e
  | .ok st =>
    match st.positional with
    | none => .error "the following arguments are required: zip_url"
    | some u => .ok ⟨u, st.bucket, st.concurrency, st.verbose⟩

namespace Zip2S3

/-- Embedding of `main` (`src/main.py` lines 87-124): parses arguments
(argparse exits with status 2 on a parse error), prints — only when
`--verbose` is set — the single line `"Downloading ZIP archive from
{zip_url}"`, then runs `extract_and_upload_file`. The result is the list of
lines printed to standard output, the store calls made, and the process
exit status: 0 when `main` returns normally, 1 when an exception
propagates out of it. -/
def main (argv : List String) (get : GetResult) (zipOpen : ZipOpen)
    (store : Store) : List String × List PutCall × Nat :=
  match parse_args argv with
  | .error _ => ([], [], 2)
  | .ok args =>
    let stdoutLines :=
      if args.verbose then ["Downloading ZIP archive from " ++ args.zip_url]
      else []
    let run := extract_and_upload_file args.zip_url get zipOpen args.bucket
        store args.concurrency
    (stdoutLines, run.1,
     match run.2 with
     | .ok _ => 0
     | .error _ => 1)

end Zip2S3

/-- Outcome stored in a future counts as success exactly when no exception
was recorded. -/
def isSuccess (r : Except String Unit) : Bool :=
  match r with
  | .ok _ => true
  | .error _ => false

/-- The keys whose upload succeeded in a pipeline run (empty when the run
raised before producing its futures). -/
def successfulKeys
    (run : List PutCall × Except String (List (String × Except String Unit))) :
    List String :=
  match run.2 with
  | .error _ => []
  | .ok futures => (futures.filter (fun f => isSuccess f.2)).map (fun f => f.1)

/-! ## Basic lemmas about the pipeline -/

/-- A run whose download and archive open both succeed and whose
concurrency is positive performs exactly one store call per non-directory
entry, in archive order, and joins into one future per such entry. -/
theorem extract_ok (zip_url : String) (get : GetResult) (zipOpen : ZipOpen)
    (zip_content : Bytes) (infolist : List ZipEntry)
    (bucket_name : Option String) (store : Store) (c : Int)
    (hdl : download_zip zip_url get = .ok zip_content)
    (hopen : zipOpen zip_content = .ok infolist) (hc : 0 < c) :
    extract_and_upload_file zip_url get zipOpen bucket_name store c =
      ((infolist.filter (fun e => ! isDirectoryEntry e)).map
          (fun e => { bucket := bucket_name, key := e.filename, data := e.content }),
       Except.ok ((infolist.filter (fun e => ! isDirectoryEntry e)).map
          (fun e => (e.filename, store bucket_name e.filename e.content)))) := by
  have hc' : ¬ c ≤ 0 := by omega
  simp only [extract_and_upload_file, hdl, hopen, if_neg hc', List.map_map]
  rfl

/-- A run whose download raises performs no store call and re-raises. -/
theorem extract_download_error (zip_url : String) (get : GetResult)
    (zipOpen : ZipOpen) (bucket_name : Option String) (store : Store) (c : Int)
    (msg : String) (hdl : download_zip zip_url get = .error msg) :
    extract_and_upload_file zip_url get zipOpen bucket_name store c =
      ([], .error msg) := by
  simp only [extract_and_upload_file, hdl]

/-- A run whose download succeeds but whose archive fails to open performs
no store call and re-raises the open error. -/
theorem extract_open_error (zip_url : String) (get : GetResult)
    (zipOpen : ZipOpen) (bucket_name : Option String) (store : Store) (c : Int)
    (zip_content : Bytes) (msg : String)
    (hdl : download_zip zip_url get = .ok zip_content)
    (hopen : zipOpen zip_content = .error msg) :
    extract_and_upload_file zip_url get zipOpen bucket_name store c =
      ([], .error msg) := by
  simp only [extract_and_upload_file, hdl, hopen]

/-- A run with a non-positive concurrency level whose download and archive
open succeed performs no store call: the `ThreadPoolExecutor` constructor
raises `ValueError` before any task is submitted. -/
theorem extract_nonpositive (zip_url : String) (get : GetResult)
    (zipOpen : ZipOpen) (bucket_name : Option String) (store : Store) (c : Int)
    (zip_content : Bytes) (infolist : List ZipEntry)
    (hdl : download_zip zip_url get = .ok zip_content)
    (hopen : zipOpen zip_content = .ok infolist) (hc : c ≤ 0) :
    extract_and_upload_file zip_url get zipOpen bucket_name store c =
      ([], .error "ValueError: max_workers must be greater than 0") := by
  simp only [extract_and_upload_file, hdl, hopen, if_pos hc]

/-- Every store call of any run carries the bucket name the pipeline was
invoked with. -/
theorem extract_puts_bucket (zip_url : String) (get : GetResult)
    (zipOpen : ZipOpen) (bucket_name : Option String) (store : Store)
    (c : Int) :
    ∀ p ∈ (extract_and_upload_file zip_url get zipOpen bucket_name store c).1,
      p.bucket = bucket_name := by
  intro p hp
  unfold extract_and_upload_file at hp
  split at hp
  · simp at hp
  · split at hp
    · simp at hp
    · split at hp
      · simp at hp
      · simp only [List.map_map, List.mem_map, List.mem_filter,
          Function.comp, upload_file] at hp
        obtain ⟨e, _, rfl⟩ := hp
        rfl

/-- The argparse scan never fills the bucket field unless the literal
token `--bucket` occurs in the argument vector. -/
theorem parseArgsLoop_bucket (l : List String) (st : ParseState)
    (hnb : "--bucket" ∉ l) :
    ∀ st2, parseArgsLoop l st = .ok st2 → st2.bucket = st.bucket := by
  induction l, st using parseArgsLoop.induct with
  | case1 st =>
    intro st2 h
    simp [parseArgsLoop] at h
    subst h
    rfl
  | case2 st =>
    exact absurd (List.mem_cons_self _ _) hnb
  | case3 st v rest2 ih =>
    exact absurd (List.mem_cons_self _ _) hnb
  | case4 st hne =>
    intro st2 h
    simp [parseArgsLoop] at h
  | case5 st v rest2 hv hne =>
    intro st2 h
    simp [parseArgsLoop, hv] at h
  | case6 st v rest2 n hv hne ih =>
    intro st2 h
    have hnb2 : "--bucket" ∉ rest2 := fun hm =>
      hnb (List.mem_cons_of_mem _ (List.mem_cons_of_mem _ hm))
    simp [parseArgsLoop, hv] at h
    exact ih hnb2 st2 h
  | case7 rest st h1 h2 ih =>
    intro st2 h
    rw [parseArgsLoop.eq_def] at h
    simp only [reduceIte] at h
    exact ih (fun hm => hnb (List.mem_cons_of_mem _ hm)) st2 h
  | case8 tok rest st h1 h2 h3 h4 =>
    intro st2 h
    rw [parseArgsLoop.eq_def] at h
    simp only [if_neg h1, if_neg h2, if_neg h3, if_pos h4] at h
    exact Except.noConfusion h
  | case9 tok rest st h1 h2 h3 h4 h5 ih =>
    intro st2 h
    rw [parseArgsLoop.eq_def] at h
    simp only [if_neg h1, if_neg h2, if_neg h3, if_neg h4, h5] at h
    exact ih (fun hm => hnb (List.mem_cons_of_mem _ hm)) st2 h
  | case10 tok rest st h1 h2 h3 h4 val h5 =>
    intro st2 h
    rw [parseArgsLoop.eq_def] at h
    simp only [if_neg h1, if_neg h2, if_neg h3, if_neg h4, h5] at h
    exact Except.noConfusion h

/-- When the argument vector does not contain `--bucket` and parsing
succeeds, the parsed arguments carry `bucket = none`. -/
theorem parse_args_bucket_none (argv : List String) (args : Args)
    (hnb : "--bucket" ∉ argv) (hp : parse_args argv = .ok args) :
    args.bucket = none := by
  unfold parse_args at hp
  cases hloop : parseArgsLoop argv ⟨none, none, 1, false⟩ with
  | error e => rw [hloop] at hp; exact Except.noConfusion hp
  | ok st =>
    rw [hloop] at hp
    dsimp only at hp
    have hb : st.bucket = none :=
      parseArgsLoop_bucket argv ⟨none, none, 1, false⟩ hnb st hloop
    cases hpos : st.positional with
    | none => rw [hpos] at hp; exact Except.noConfusion hp
    | some u =>
      rw [hpos] at hp
      cases hp
      exact hb

/-! ## Claim theorems -/

/-- C1: for every archive with N non-directory entries and every
concurrency level C ≥ 1, the pipeline performs exactly N upload attempts —
one store put per non-directory entry — and the uploaded object keys are
exactly the archive's non-directory entry paths, independent of completion
order. -/
theorem C1_one_put_per_entry (zip_url : String) (resp : HttpResponse)
    (zipOpen : ZipOpen) (infolist : List ZipEntry) (bucket : Option String)
    (store : Store) (c : Int) (hc : 1 ≤ c)
    (hst : raiseForStatusRaises resp = false)
    (hopen : zipOpen resp.content = .ok infolist) :
    ((extract_and_upload_file zip_url (.resp resp) zipOpen bucket store c).1.length
      = (infolist.filter (fun e => ! isDirectoryEntry e)).length) ∧
    ((extract_and_upload_file zip_url (.resp resp) zipOpen bucket store c).1.map PutCall.key
      = (infolist.filter (fun e => ! isDirectoryEntry e)).map ZipEntry.filename) ∧
    (∀ k : String,
      k ∈ (extract_and_upload_file zip_url (.resp resp) zipOpen bucket store c).1.map PutCall.key ↔
      k ∈ (infolist.filter (fun e => ! isDirectoryEntry e)).map ZipEntry.filename) := by
  have hdl : download_zip zip_url (.resp resp) = .ok resp.content := by
    simp [download_zip, hst]
  rw [extract_ok zip_url (.resp resp) zipOpen resp.content infolist bucket store c
    hdl hopen (by omega)]
  refine ⟨by simp, ?_, ?_⟩
  · rw [List.map_map]
    rfl
  · intro k
    rw [List.map_map]
    rfl

/-- Witness for C1: an archive with two files and one directory entry,
uploaded with concurrency 2, yields two puts whose keys are the two file
paths. -/
theorem C1_witness :
    ((extract_and_upload_file "http://e/a.zip" (.resp ⟨200, [7]⟩)
        (fun _ => .ok [⟨"a.txt", [1]⟩, ⟨"d/", []⟩, ⟨"d/b.txt", [2]⟩])
        (some "bkt") (fun _ _ _ => .ok ()) 2).1.length
      = ([⟨"a.txt", [1]⟩, ⟨"d/", []⟩, ⟨"d/b.txt", [2]⟩].filter
          (fun e => ! isDirectoryEntry e)).length) ∧
    ((extract_and_upload_file "http://e/a.zip" (.resp ⟨200, [7]⟩)
        (fun _ => .ok [⟨"a.txt", [1]⟩, ⟨"d/", []⟩, ⟨"d/b.txt", [2]⟩])
        (some "bkt") (fun _ _ _ => .ok ()) 2).1.map PutCall.key
      = ([⟨"a.txt", [1]⟩, ⟨"d/", []⟩, ⟨"d/b.txt", [2]⟩].filter
          (fun e => ! isDirectoryEntry e)).map ZipEntry.filename) ∧
    (∀ k : String,
      k ∈ (extract_and_upload_file "http://e/a.zip" (.resp ⟨200, [7]⟩)
        (fun _ => .ok [⟨"a.txt", [1]⟩, ⟨"d/", []⟩, ⟨"d/b.txt", [2]⟩])
        (some "bkt") (fun _ _ _ => .ok ()) 2).1.map PutCall.key ↔
      k ∈ ([⟨"a.txt", [1]⟩, ⟨"d/", []⟩, ⟨"d/b.txt", [2]⟩].filter
          (fun e => ! isDirectoryEntry e)).map ZipEntry.filename) :=
  C1_one_put_per_entry "http://e/a.zip" ⟨200, [7]⟩
    (fun _ => .ok [⟨"a.txt", [1]⟩, ⟨"d/", []⟩, ⟨"d/b.txt", [2]⟩])
    [⟨"a.txt", [1]⟩, ⟨"d/", []⟩, ⟨"d/b.txt", [2]⟩]
    (some "bkt") (fun _ _ _ => .ok ()) 2 (by norm_num) (by decide) rfl

/-- C2 counterexample: in a run where the upload of `a.txt` fails, the
pipeline nevertheless returns normally — the failure is left inside the
joined future and no aggregate error of any kind (in particular no
`PartialUploadError`) is raised after the join. -/
theorem C2_counterexample :
    (extract_and_upload_file "http://e/a.zip" (.resp ⟨200, [0]⟩)
        (fun _ => .ok [⟨"a.txt", [1]⟩, ⟨"b.txt", [2]⟩]) (some "bkt")
        (fun _ k _ => if k = "a.txt" then .error "AccessDenied" else .ok ()) 2).2
      = .ok [("a.txt", .error "AccessDenied"), ("b.txt", .ok ())] := by decide

/-- C2 amended: when at least one entry's upload fails, every non-directory
entry is still attempted exactly once (no fail-fast) and each failure is
caught at the worker boundary — stored in that task's future — so siblings
are unaffected; but the pipeline surfaces no aggregate error: it returns
normally with the failures silently retained in the never-inspected
futures. -/
theorem C2_no_fail_fast (zip_url : String) (resp : HttpResponse)
    (zipOpen : ZipOpen) (infolist : List ZipEntry) (bucket : Option String)
    (store : Store) (c : Int) (hc : 1 ≤ c)
    (hst : raiseForStatusRaises resp = false)
    (hopen : zipOpen resp.content = .ok infolist)
    (hfail : ∃ e ∈ infolist, isDirectoryEntry e = false ∧
      store bucket e.filename e.content ≠ .ok ()) :
    ((extract_and_upload_file zip_url (.resp resp) zipOpen bucket store c).1.map PutCall.key
      = (infolist.filter (fun e => ! isDirectoryEntry e)).map ZipEntry.filename) ∧
    ((extract_and_upload_file zip_url (.resp resp) zipOpen bucket store c).2
      = .ok ((infolist.filter (fun e => ! isDirectoryEntry e)).map
          (fun e => (e.filename, store bucket e.filename e.content)))) := by
  have hdl : download_zip zip_url (.resp resp) = .ok resp.content := by
    simp [download_zip, hst]
  rw [extract_ok zip_url (.resp resp) zipOpen resp.content infolist bucket store c
    hdl hopen (by omega)]
  refine ⟨?_, rfl⟩
  rw [List.map_map]
  rfl

/-- Witness for the amended C2: with the upload of `x.txt` failing, both
entries are still put once each and the pipeline returns normally. -/
theorem C2_witness :
    ((extract_and_upload_file "http://e/c.zip" (.resp ⟨200, [5]⟩)
        (fun _ => .ok [⟨"x.txt", [3]⟩, ⟨"y.txt", [4]⟩]) (some "bb")
        (fun _ k _ => if k = "x.txt" then .error "Denied" else .ok ()) 1).1.map PutCall.key
      = ([⟨"x.txt", [3]⟩, ⟨"y.txt", [4]⟩].filter
          (fun e => ! isDirectoryEntry e)).map ZipEntry.filename) ∧
    ((extract_and_upload_file "http://e/c.zip" (.resp ⟨200, [5]⟩)
        (fun _ => .ok [⟨"x.txt", [3]⟩, ⟨"y.txt", [4]⟩]) (some "bb")
        (fun _ k _ => if k = "x.txt" then .error "Denied" else .ok ()) 1).2
      = .ok (([⟨"x.txt", [3]⟩, ⟨"y.txt", [4]⟩].filter
          (fun e => ! isDirectoryEntry e)).map
          (fun e => (e.filename,
            (fun (_ : Option String) (k : String) (_ : Bytes) =>
              if k = "x.txt" then Except.error "Denied" else Except.ok ())
              (some "bb") e.filename e.content)))) :=
  C2_no_fail_fast "http://e/c.zip" ⟨200, [5]⟩
    (fun _ => .ok [⟨"x.txt", [3]⟩, ⟨"y.txt", [4]⟩])
    [⟨"x.txt", [3]⟩, ⟨"y.txt", [4]⟩] (some "bb")
    (fun _ k _ => if k = "x.txt" then .error "Denied" else .ok ()) 1
    (by norm_num) (by decide) rfl (by decide)

/-- C3: in every successful run, each store call's object key is the
submitted entry's archive-internal path verbatim (and its data is that
entry's bytes) — no flattening or rewriting; `upload_file` itself always
passes `file_info.filename` as the key. -/
theorem C3_key_is_entry_path (zip_url : String) (resp : HttpResponse)
    (zipOpen : ZipOpen) (infolist : List ZipEntry) (bucket : Option String)
    (store : Store) (c : Int) (hc : 1 ≤ c)
    (hst : raiseForStatusRaises resp = false)
    (hopen : zipOpen resp.content = .ok infolist) :
    (∀ e : ZipEntry, (upload_file store e bucket).1.key = e.filename) ∧
    (∀ p ∈ (extract_and_upload_file zip_url (.resp resp) zipOpen bucket store c).1,
      ∃ e ∈ infolist, isDirectoryEntry e = false ∧
        p.key = e.filename ∧ p.data = e.content) := by
  have hdl : download_zip zip_url (.resp resp) = .ok resp.content := by
    simp [download_zip, hst]
  refine ⟨fun e => rfl, ?_⟩
  rw [extract_ok zip_url (.resp resp) zipOpen resp.content infolist bucket store c
    hdl hopen (by omega)]
  intro p hp
  simp only [List.mem_map, List.mem_filter] at hp
  obtain ⟨e, ⟨he, hne⟩, rfl⟩ := hp
  exact ⟨e, he, by simpa using hne, rfl, rfl⟩

/-- Witness for C3: the spec's folder scenario — the key keeps the
`folder/` prefix verbatim. -/
theorem C3_witness :
    ((upload_file (fun _ _ _ => .ok ())
        ⟨"folder/file1.txt", [1]⟩ (some "test-bucket")).1.key = "folder/file1.txt") ∧
    (∃ e ∈ [ZipEntry.mk "folder/file1.txt" [1], ZipEntry.mk "folder/file2.txt" [2]],
      isDirectoryEntry e = false ∧
        (PutCall.mk (some "test-bucket") "folder/file1.txt" [1]).key = e.filename ∧
        (PutCall.mk (some "test-bucket") "folder/file1.txt" [1]).data = e.content) :=
  ⟨(C3_key_is_entry_path "http://e/f.zip" ⟨200, [9]⟩
      (fun _ => .ok [⟨"folder/file1.txt", [1]⟩, ⟨"folder/file2.txt", [2]⟩])
      [⟨"folder/file1.txt", [1]⟩, ⟨"folder/file2.txt", [2]⟩] (some "test-bucket")
      (fun _ _ _ => .ok ()) 1 (by norm_num) (by decide) rfl).1 ⟨"folder/file1.txt", [1]⟩,
   (C3_key_is_entry_path "http://e/f.zip" ⟨200, [9]⟩
      (fun _ => .ok [⟨"folder/file1.txt", [1]⟩, ⟨"folder/file2.txt", [2]⟩])
      [⟨"folder/file1.txt", [1]⟩, ⟨"folder/file2.txt", [2]⟩] (some "test-bucket")
      (fun _ _ _ => .ok ()) 1 (by norm_num) (by decide) rfl).2
     ⟨some "test-bucket", "folder/file1.txt", [1]⟩ (by decide)⟩

/-- C4: in every run whatsoever — regardless of download, open or
concurrency outcome — no store call carries a key ending in the path
separator: directory entries are filtered out before dispatch and never
generate an upload attempt. -/
theorem C4_no_directory_puts (zip_url : String) (get : GetResult)
    (zipOpen : ZipOpen) (bucket : Option String) (store : Store) (c : Int) :
    ∀ p ∈ (extract_and_upload_file zip_url get zipOpen bucket store c).1,
      endswith p.key "/" = false := by
  intro p hp
  unfold extract_and_upload_file at hp
  split at hp
  · simp at hp
  · split at hp
    · simp at hp
    · split at hp
      · simp at hp
      · simp only [List.map_map, List.mem_map, List.mem_filter, Function.comp,
          upload_file] at hp
        obtain ⟨e, ⟨_, hne⟩, rfl⟩ := hp
        simpa [isDirectoryEntry] using hne

/-- Witness for C4: in a run over an archive holding `dir/` and `dir/f.txt`
the recorded put for `dir/f.txt` has a non-directory key. -/
theorem C4_witness :
    endswith (PutCall.mk (some "bkt") "dir/f.txt" [6]).key "/" = false :=
  C4_no_directory_puts "http://e/d.zip" (.resp ⟨200, [2]⟩)
    (fun _ => .ok [⟨"dir/", []⟩, ⟨"dir/f.txt", [6]⟩]) (some "bkt")
    (fun _ _ _ => .ok ()) 1 ⟨some "bkt", "dir/f.txt", [6]⟩ (by decide)

/-- C5: when the archive fetch fails (HTTP error status or transport
failure), the run aborts with the fetch error before any store
interaction: the put list is empty and the fetch exception propagates. -/
theorem C5_fetch_error_no_store_calls (zip_url : String) (get : GetResult)
    (zipOpen : ZipOpen) (bucket : Option String) (store : Store) (c : Int)
    (msg : String) (hdl : download_zip zip_url get = .error msg) :
    ((extract_and_upload_file zip_url get zipOpen bucket store c).1 = []) ∧
    ((extract_and_upload_file zip_url get zipOpen bucket store c).2 = .error msg) := by
  rw [extract_download_error zip_url get zipOpen bucket store c msg hdl]
  exact ⟨rfl, rfl⟩

/-- Witness for C5: an HTTP 404 aborts with zero puts. -/
theorem C5_witness :
    ((extract_and_upload_file "http://example.com/missing.zip" (.resp ⟨404, []⟩)
        (fun _ => .ok [⟨"a.txt", [1]⟩]) (some "bkt") (fun _ _ _ => .ok ()) 1).1 = []) ∧
    ((extract_and_upload_file "http://example.com/missing.zip" (.resp ⟨404, []⟩)
        (fun _ => .ok [⟨"a.txt", [1]⟩]) (some "bkt") (fun _ _ _ => .ok ()) 1).2
      = .error "Failed to download ZIP archive from http://example.com/missing.zip: HTTPError 404") :=
  C5_fetch_error_no_store_calls "http://example.com/missing.zip" (.resp ⟨404, []⟩)
    (fun _ => .ok [⟨"a.txt", [1]⟩]) (some "bkt") (fun _ _ _ => .ok ()) 1
    "Failed to download ZIP archive from http://example.com/missing.zip: HTTPError 404"
    (by decide)

/-- C6: for a fixed archive and a stable store, two runs with different
concurrency levels (each ≥ 1) produce the same set of successfully
uploaded keys — indeed the whole observable run is identical in content. -/
theorem C6_concurrency_irrelevant (zip_url : String) (get : GetResult)
    (zipOpen : ZipOpen) (bucket : Option String) (store : Store)
    (c1 c2 : Int) (h1 : 1 ≤ c1) (h2 : 1 ≤ c2) :
    (successfulKeys (extract_and_upload_file zip_url get zipOpen bucket store c1)
      = successfulKeys (extract_and_upload_file zip_url get zipOpen bucket store c2)) ∧
    (extract_and_upload_file zip_url get zipOpen bucket store c1
      = extract_and_upload_file zip_url get zipOpen bucket store c2) := by
  have key : extract_and_upload_file zip_url get zipOpen bucket store c1
      = extract_and_upload_file zip_url get zipOpen bucket store c2 := by
    cases hdl : download_zip zip_url get with
    | error msg =>
      rw [extract_download_error zip_url get zipOpen bucket store c1 msg hdl,
          extract_download_error zip_url get zipOpen bucket store c2 msg hdl]
    | ok b =>
      cases hz : zipOpen b with
      | error msg =>
        rw [extract_open_error zip_url get zipOpen bucket store c1 b msg hdl hz,
            extract_open_error zip_url get zipOpen bucket store c2 b msg hdl hz]
      | ok infolist =>
        rw [extract_ok zip_url get zipOpen b infolist bucket store c1 hdl hz (by omega),
            extract_ok zip_url get zipOpen b infolist bucket store c2 hdl hz (by omega)]
  exact ⟨by rw [key], key⟩

/-- Witness for C6: concurrency 1 versus concurrency 3 over the same
archive and a store that fails one key give identical results. -/
theorem C6_witness :
    (successfulKeys (extract_and_upload_file "http://e/s.zip" (.resp ⟨200, [8]⟩)
        (fun _ => .ok [⟨"p.txt", [1]⟩, ⟨"q.txt", [2]⟩]) (some "sb")
        (fun _ k _ => if k = "q.txt" then .error "Denied" else .ok ()) 1)
      = successfulKeys (extract_and_upload_file "http://e/s.zip" (.resp ⟨200, [8]⟩)
        (fun _ => .ok [⟨"p.txt", [1]⟩, ⟨"q.txt", [2]⟩]) (some "sb")
        (fun _ k _ => if k = "q.txt" then .error "Denied" else .ok ()) 3)) ∧
    (extract_and_upload_file "http://e/s.zip" (.resp ⟨200, [8]⟩)
        (fun _ => .ok [⟨"p.txt", [1]⟩, ⟨"q.txt", [2]⟩]) (some "sb")
        (fun _ k _ => if k = "q.txt" then .error "Denied" else .ok ()) 1
      = extract_and_upload_file "http://e/s.zip" (.resp ⟨200, [8]⟩)
        (fun _ => .ok [⟨"p.txt", [1]⟩, ⟨"q.txt", [2]⟩]) (some "sb")
        (fun _ k _ => if k = "q.txt" then .error "Denied" else .ok ()) 3) :=
  C6_concurrency_irrelevant "http://e/s.zip" (.resp ⟨200, [8]⟩)
    (fun _ => .ok [⟨"p.txt", [1]⟩, ⟨"q.txt", [2]⟩]) (some "sb")
    (fun _ k _ => if k = "q.txt" then .error "Denied" else .ok ()) 1 3
    (by norm_num) (by norm_num)

/-- C7: with `--verbose`, the program prints exactly ONE status line — the
downloading line — not three: neither the "Extracting and uploading files
to S3" line nor the processing-level summary line that `src/tests.py`
(`test_main`) expects is ever printed; without `--verbose` nothing is
printed. This evaluates `main` at the exact invocation of `test_main`. -/
theorem C7_single_status_line :
    ((Zip2S3.main ["https://example.com", "--bucket", "test-bucket",
        "--concurrency", "2", "--verbose"]
      (.resp ⟨200, []⟩) (fun _ => .ok []) (fun _ _ _ => .ok ())).1
      = ["Downloading ZIP archive from https://example.com"]) ∧
    ((Zip2S3.main ["https://example.com", "--bucket", "test-bucket",
        "--concurrency", "2"]
      (.resp ⟨200, []⟩) (fun _ => .ok []) (fun _ _ _ => .ok ())).1 = []) :=
  ⟨by decide, by decide⟩

/-- C8 counterexample: a run in which the single entry's upload fails still
exits with status zero — `concurrent.futures.wait` never re-raises the
stored exception, so `main` returns normally. -/
theorem C8_counterexample :
    (Zip2S3.main ["http://e/b.zip", "--bucket", "mybucket"] (.resp ⟨200, [3]⟩)
      (fun _ => .ok [⟨"f.txt", [9]⟩]) (fun _ _ _ => .error "AccessDenied")).2.2
      = 0 := by decide

/-- C8 amended: the process exits non-zero when the fetch fails (the
exception propagates out of `main`); but whenever fetch and archive open
succeed and the concurrency is at least 1 it exits zero REGARDLESS of the
store's behaviour — upload failures are swallowed by the futures and do
not affect the exit status. -/
theorem C8_exit_status (argv : List String) (get : GetResult)
    (zipOpen : ZipOpen) (store : Store) (args : Args)
    (hp : parse_args argv = .ok args) :
    (∀ msg, download_zip args.zip_url get = .error msg →
      (Zip2S3.main argv get zipOpen store).2.2 = 1) ∧
    (∀ b infolist, download_zip args.zip_url get = .ok b →
      zipOpen b = .ok infolist → 1 ≤ args.concurrency →
      (Zip2S3.main argv get zipOpen store).2.2 = 0) := by
  constructor
  · intro msg hdl
    unfold Zip2S3.main
    rw [hp]
    dsimp only
    rw [extract_download_error args.zip_url get zipOpen args.bucket store
      args.concurrency msg hdl]
  · intro b infolist hdl hz hc
    unfold Zip2S3.main
    rw [hp]
    dsimp only
    rw [extract_ok args.zip_url get zipOpen b infolist args.bucket store
      args.concurrency hdl hz (by omega)]

/-- Witness for the amended C8: a 404 fetch exits 1; a successful fetch
with a store that rejects every upload still exits 0. -/
theorem C8_witness :
    ((Zip2S3.main ["http://example.com/missing.zip", "--bucket", "bb"]
      (.resp ⟨404, []⟩) (fun _ => .ok []) (fun _ _ _ => .ok ())).2.2 = 1) ∧
    ((Zip2S3.main ["http://example.com/ok.zip", "--bucket", "bb"]
      (.resp ⟨200, [4]⟩) (fun _ => .ok [⟨"g.txt", [5]⟩])
      (fun _ _ _ => .error "Denied")).2.2 = 0) :=
  ⟨(C8_exit_status ["http://example.com/missing.zip", "--bucket", "bb"]
      (.resp ⟨404, []⟩) (fun _ => .ok []) (fun _ _ _ => .ok ())
      ⟨"http://example.com/missing.zip", some "bb", 1, false⟩ (by decide)).1
    "Failed to download ZIP archive from http://example.com/missing.zip: HTTPError 404"
    (by decide),
   (C8_exit_status ["http://example.com/ok.zip", "--bucket", "bb"]
      (.resp ⟨200, [4]⟩) (fun _ => .ok [⟨"g.txt", [5]⟩])
      (fun _ _ _ => .error "Denied")
      ⟨"http://example.com/ok.zip", some "bb", 1, false⟩ (by decide)).2
    [4] [⟨"g.txt", [5]⟩] (by decide) rfl (by norm_num)⟩

/-- C9: a concurrency value below 1 never yields a normal pipeline run:
no store call is ever made, and when download and open succeed the
`ThreadPoolExecutor` constructor's `ValueError` is raised before any task
is dispatched; argparse itself accepts the out-of-range value. -/
theorem C9_invalid_concurrency (zip_url : String) (get : GetResult)
    (zipOpen : ZipOpen) (bucket : Option String) (store : Store) (c : Int)
    (hc : c < 1) :
    ((extract_and_upload_file zip_url get zipOpen bucket store c).1 = []) ∧
    (∀ b infolist, download_zip zip_url get = .ok b → zipOpen b = .ok infolist →
      (extract_and_upload_file zip_url get zipOpen bucket store c).2
        = .error "ValueError: max_workers must be greater than 0") ∧
    (parse_args ["http://example.com/a.zip", "--concurrency", "-2"]
      = .ok ⟨"http://example.com/a.zip", none, -2, false⟩) := by
  have hc0 : c ≤ 0 := by omega
  refine ⟨?_, ?_, by decide⟩
  · cases hdl : download_zip zip_url get with
    | error msg =>
      rw [extract_download_error zip_url get zipOpen bucket store c msg hdl]
    | ok b =>
      cases hz : zipOpen b with
      | error msg =>
        rw [extract_open_error zip_url get zipOpen bucket store c b msg hdl hz]
      | ok infolist =>
        rw [extract_nonpositive zip_url get zipOpen bucket store c b infolist hdl hz hc0]
  · intro b infolist hdl hz
    rw [extract_nonpositive zip_url get zipOpen bucket store c b infolist hdl hz hc0]

/-- Witness for C9: concurrency 0 over a well-formed archive performs zero
puts and raises the `ValueError`. -/
theorem C9_witness :
    ((extract_and_upload_file "http://e/z.zip" (.resp ⟨200, [1]⟩)
        (fun _ => .ok [⟨"h.txt", [1]⟩]) (some "b9") (fun _ _ _ => .ok ()) 0).1 = []) ∧
    ((extract_and_upload_file "http://e/z.zip" (.resp ⟨200, [1]⟩)
        (fun _ => .ok [⟨"h.txt", [1]⟩]) (some "b9") (fun _ _ _ => .ok ()) 0).2
      = .error "ValueError: max_workers must be greater than 0") :=
  ⟨(C9_invalid_concurrency "http://e/z.zip" (.resp ⟨200, [1]⟩)
      (fun _ => .ok [⟨"h.txt", [1]⟩]) (some "b9") (fun _ _ _ => .ok ()) 0
      (by norm_num)).1,
   (C9_invalid_concurrency "http://e/z.zip" (.resp ⟨200, [1]⟩)
      (fun _ => .ok [⟨"h.txt", [1]⟩]) (some "b9") (fun _ _ _ => .ok ()) 0
      (by norm_num)).2.1 [1] [⟨"h.txt", [1]⟩] (by decide) rfl⟩

/-- C10: omitting `--bucket` is not rejected: whenever the argument vector
does not contain `--bucket` and parsing succeeds, the parsed bucket is
`None`, and every store call of the resulting run is made with bucket
`None`. -/
theorem C10_bucket_not_required (argv : List String) (get : GetResult)
    (zipOpen : ZipOpen) (store : Store) (args : Args)
    (hnb : "--bucket" ∉ argv) (hp : parse_args argv = .ok args) :
    args.bucket = none ∧
    ∀ p ∈ (Zip2S3.main argv get zipOpen store).2.1, p.bucket = none := by
  have hb : args.bucket = none := parse_args_bucket_none argv args hnb hp
  refine ⟨hb, ?_⟩
  intro p hpmem
  unfold Zip2S3.main at hpmem
  rw [hp] at hpmem
  dsimp only at hpmem
  rw [← hb]
  exact extract_puts_bucket args.zip_url get zipOpen args.bucket store
    args.concurrency p hpmem

/-- Witness for C10: invoking with only the URL parses to bucket `None`
and the single put of the run carries bucket `None`. -/
theorem C10_witness :
    ((⟨"http://example.com/a.zip", none, 1, false⟩ : Args).bucket = none) ∧
    ((PutCall.mk none "a.txt" [2]).bucket = none) :=
  ⟨(C10_bucket_not_required ["http://example.com/a.zip"] (.resp ⟨200, [1]⟩)
      (fun _ => .ok [⟨"a.txt", [2]⟩]) (fun _ _ _ => .ok ())
      ⟨"http://example.com/a.zip", none, 1, false⟩ (by decide) (by decide)).1,
   (C10_bucket_not_required ["http://example.com/a.zip"] (.resp ⟨200, [1]⟩)
      (fun _ => .ok [⟨"a.txt", [2]⟩]) (fun _ _ _ => .ok ())
      ⟨"http://example.com/a.zip", none, 1, false⟩ (by decide) (by decide)).2
    ⟨none, "a.txt", [2]⟩ (by decide)⟩
